import Mathlib

/-!
# Verification of the `clustered` CDC indexer

Shallow embedding of `src/infra/indexer/indexer.py` (Kafka CDC consumer →
OpenSearch indexer) and of the status-code behaviour of
`src/infra/api/api.py` (FastAPI search service), together with theorems
settling the specification claims about them.

Modelling conventions:
* JSON values (the output of `json.loads`) are the inductive `JValue`.
  JSON numbers are modelled as integers (no claim involves floats).
* Python operations that can raise (`dict.get` on a non-dict, `in` on a
  non-container, subscripting) return `Except String _`; the error string
  names the Python exception.
* The external index store (OpenSearch) is an oracle `reply : StoreOp →
  StoreReply` deciding, per call, whether the call succeeds, raises
  `NotFoundError`, or raises some other exception.
-/

namespace Clustered

/-- A JSON value as produced by `json.loads` in the consumer's
`value_deserializer`.  Objects keep their fields as an association list
with distinct keys (Python dict); numbers are modelled as integers. -/
inductive JValue : Type where
  | null : JValue
  | bool (b : Bool) : JValue
  | num (n : Int) : JValue
  | str (s : String) : JValue
  | arr (xs : List JValue) : JValue
  | obj (fields : List (String × JValue)) : JValue

mutual
/-- Structural equality of JSON values (Python `==` on deserialized
JSON). -/
def jBeq : JValue → JValue → Bool
  | .null, .null => true
  | .bool a, .bool b => a == b
  | .num a, .num b => a == b
  | .str a, .str b => a == b
  | .arr a, .arr b => jBeqList a b
  | .obj a, .obj b => jBeqFields a b
  | _, _ => false

/-- Elementwise equality of JSON arrays. -/
def jBeqList : List JValue → List JValue → Bool
  | [], [] => true
  | a :: as_, b :: bs => jBeq a b && jBeqList as_ bs
  | _, _ => false

/-- Entrywise equality of JSON objects. -/
def jBeqFields : List (String × JValue) → List (String × JValue) → Bool
  | [], [] => true
  | (ka, va) :: as_, (kb, vb) :: bs => ka == kb && jBeq va vb && jBeqFields as_ bs
  | _, _ => false
end

instance : BEq JValue := ⟨jBeq⟩

/-- Python truthiness (`if value:` / `if after:`) of a deserialized JSON
value: `None`, `False`, `0`, `""`, `[]`, `{}` are falsy. -/
def pyTruthy : JValue → Bool
  | .null => false
  | .bool b => b
  | .num n => n != 0
  | .str s => !s.isEmpty
  | .arr xs => !xs.isEmpty
  | .obj fs => !fs.isEmpty

/-- First-match association lookup: Python `dict` access (keys are unique,
so first match is the match).  A key present with JSON `null` value yields
`some .null`, distinct from an absent key (`none`). -/
def jLookup (fs : List (String × JValue)) (k : String) : Option JValue :=
  match fs with
  | [] => none
  | (k2, v) :: rest => if k2 = k then some v else jLookup rest k

/-- Python `d.get(k, default)` on a dict: the stored value when the key is
present (even if that value is `None`), the default otherwise. -/
def jGetD (fs : List (String × JValue)) (k : String) (d : JValue) : JValue :=
  (jLookup fs k).getD d

mutual
/-- Python `repr` of a deserialized JSON value (string escaping inside
reprs is not modelled; no claim depends on it). -/
def pyRepr : JValue → String
  | .null => "None"
  | .bool true => "True"
  | .bool false => "False"
  | .num n => toString n
  | .str s => "\x27" ++ s ++ "\x27"
  | .arr xs => "[" ++ String.intercalate ", " (pyReprList xs) ++ "]"
  | .obj fs => "\x7b" ++ String.intercalate ", " (pyReprFields fs) ++ "\x7d"

/-- `repr` of each element of a Python list. -/
def pyReprList : List JValue → List String
  | [] => []
  | x :: xs => pyRepr x :: pyReprList xs

/-- `repr` of each `key: value` entry of a Python dict. -/
def pyReprFields : List (String × JValue) → List String
  | [] => []
  | (k, v) :: fs => ("\x27" ++ k ++ "\x27: " ++ pyRepr v) :: pyReprFields fs
end

/-- Python `str(...)` coercion of a deserialized JSON value: a string is
itself, anything else is its `repr` — in particular `str(None) = "None"`
and `str(42) = "42"`. -/
def pyStr : JValue → String
  | .str s => s
  | v => pyRepr v

/-- Python `op in ("c", "u", "r")` where `op` is whatever
`payload.get("op", "")` returned (equality against the three strings;
false for any non-string JSON value). -/
def opIsCUR : JValue → Bool
  | .str s => s == "c" || s == "u" || s == "r"
  | _ => false

/-- Python `op == "d"`. -/
def opIsD : JValue → Bool
  | .str s => s == "d"
  | _ => false

/-- `str(doc.get("id", doc.get("Id", "")))` — the document-identifier
extraction used by `transform` on the `after`/`before` image.  The `"Id"`
fallback is consulted only when the `"id"` key is absent; a present
`"id": null` stringifies to `"None"`. -/
def extractDocId (fs : List (String × JValue)) : String :=
  pyStr (jGetD fs "id" (jGetD fs "Id" (.str "")))

/-- `indexer.transform(payload)`: returns `(operation, doc_id, body)` with
operation one of `"index"`, `"delete"`, `"skip"`.  `.error` marks the
Python exceptions the source would raise: `payload.get` on a non-dict
payload, or `.get` on a truthy non-dict `after`/`before`
(`AttributeError`). -/
def transform (payload : JValue) : Except String (String × String × JValue) :=
  match payload with
  | .obj pf =>
    let op := jGetD pf "op" (.str "")
    let after := jGetD pf "after" .null
    let before := jGetD pf "before" .null
    if opIsCUR op && pyTruthy after then
      match after with
      | .obj afs => .ok ("index", extractDocId afs, .obj afs)
      | _ => .error "AttributeError"
    else if opIsD op && pyTruthy before then
      match before with
      | .obj bfs => .ok ("delete", extractDocId bfs, .null)
      | _ => .error "AttributeError"
    else .ok ("skip", "", .null)
  | _ => .error "AttributeError"

/-- Python `topic.split(".")` on the character list: the (possibly empty)
segments between dots, empty segments preserved. -/
def splitOnDot : List Char → List (List Char)
  | [] => [[]]
  | c :: rest =>
    let r := splitOnDot rest
    if c = '.' then [] :: r
    else (c :: r.headD []) :: r.tail

/-- `indexer.topic_to_index`: last dot-delimited segment of the topic
name, lower-cased (`cdc.dbo.profiles → profiles`), i.e.
`topic.split(".")[-1].lower()`. -/
def topic_to_index (topic : String) : String :=
  String.mk (((splitOnDot topic.toList).getLastD []).map Char.toLower)

/-- Python `"payload" in s` membership test: key membership for a dict,
substring for a string, element membership for a list; raises `TypeError`
on other values (checked after `not value`, so only truthy values reach
it). -/
def pyContains (v : JValue) (k : String) : Except String Bool :=
  match v with
  | .obj fs => .ok (jLookup fs k).isSome
  | .str s => .ok (decide (2 ≤ (s.splitOn k).length))
  | .arr xs => .ok (xs.contains (.str k))
  | _ => .error "TypeError: argument is not iterable"

/-- Python `value["payload"]` subscripting: the stored value for a dict
with the key present, `KeyError` for a dict without it, `TypeError` for
other values. -/
def pySubscript (v : JValue) (k : String) : Except String JValue :=
  match v with
  | .obj fs =>
    match jLookup fs k with
    | some x => .ok x
    | none => .error "KeyError"
  | _ => .error "TypeError"

/-- One Kafka message as seen by the run loop: topic/partition/offset
and the deserialized value (`none` models an empty message body, which the
`value_deserializer` turns into `None`). -/
structure Message : Type where
  topic : String
  partition : Nat
  offset : Nat
  value : Option JValue

/-- The run loop's mutable state: the three counters of `main` plus the
contents of the external index store, keyed by `(index, doc_id)`. -/
structure LoopState : Type where
  indexed : Nat
  deleted : Nat
  errors : Nat
  docs : List ((String × String) × JValue)

/-- One OpenSearch call issued by the loop: `os_client.index(...)` or
`os_client.delete(...)`. -/
inductive StoreOp : Type where
  | indexDoc (index id : String) (body : JValue) : StoreOp
  | deleteDoc (index id : String) : StoreOp

/-- Outcome of one OpenSearch call: success, `NotFoundError`, or any
other exception. -/
inductive StoreReply : Type where
  | ok : StoreReply
  | notFound : StoreReply
  | fail (e : String) : StoreReply

/-- Observable events of one loop iteration, in execution order: a store
call with its outcome, the `consumer.commit()`, or an exception reaching
the per-message `except` handler. -/
inductive Ev : Type where
  | call (op : StoreOp) (r : StoreReply) : Ev
  | commit : Ev
  | error (e : String) : Ev

/-- Upsert into the store model: `os_client.index` replaces any document
with the same `(index, id)` key. -/
def storeUpsert (docs : List ((String × String) × JValue)) (index id : String)
    (body : JValue) : List ((String × String) × JValue) :=
  ((index, id), body) :: docs.filter (fun e => !(e.1.1 == index && e.1.2 == id))

/-- Delete from the store model: removes the `(index, id)` document. -/
def storeDelete (docs : List ((String × String) × JValue)) (index id : String) :
    List ((String × String) × JValue) :=
  docs.filter (fun e => !(e.1.1 == index && e.1.2 == id))

/-- The body of `main`'s `for message in consumer:` loop for one message
(indexer.py lines 123-161), with the store abstracted by `reply`.
Returns the updated state and the iteration's event trace:
* falsy value or no `"payload"` key → immediate `commit`;
* `transform`, the `in` test or the subscript raising, or a store call
  failing (other than `NotFoundError` on delete) → `errors + 1`, no
  commit;
* otherwise the action is applied and `commit` follows it. -/
def processMessage (reply : StoreOp → StoreReply) (st : LoopState)
    (m : Message) : LoopState × List Ev :=
  match m.value with
  | none => (st, [Ev.commit])
  | some v =>
    if pyTruthy v = false then (st, [Ev.commit])
    else
      match pyContains v "payload" with
      | .error e => ({ st with errors := st.errors + 1 }, [Ev.error e])
      | .ok false => (st, [Ev.commit])
      | .ok true =>
        match pySubscript v "payload" with
        | .error e => ({ st with errors := st.errors + 1 }, [Ev.error e])
        | .ok payload =>
          let index := topic_to_index m.topic
          match transform payload with
          | .error e => ({ st with errors := st.errors + 1 }, [Ev.error e])
          | .ok (op, docId, doc) =>
            if op = "skip" ∨ docId = "" then (st, [Ev.commit])
            else if op = "index" then
              let c := StoreOp.indexDoc index docId doc
              match reply c with
              | .ok =>
                ({ st with indexed := st.indexed + 1,
                           docs := storeUpsert st.docs index docId doc },
                 [Ev.call c .ok, Ev.commit])
              | .notFound =>
                ({ st with errors := st.errors + 1 },
                 [Ev.call c .notFound, Ev.error "NotFoundError"])
              | .fail e =>
                ({ st with errors := st.errors + 1 },
                 [Ev.call c (.fail e), Ev.error e])
            else if op = "delete" then
              let c := StoreOp.deleteDoc index docId
              match reply c with
              | .ok =>
                ({ st with deleted := st.deleted + 1,
                           docs := storeDelete st.docs index docId },
                 [Ev.call c .ok, Ev.commit])
              | .notFound => (st, [Ev.call c .notFound, Ev.commit])
              | .fail e =>
                ({ st with errors := st.errors + 1 },
                 [Ev.call c (.fail e), Ev.error e])
            else (st, [Ev.commit])

/-- The run loop over a finite message sequence (no shutdown request):
folds `processMessage` and collects each iteration's trace. -/
def runLoop (reply : StoreOp → StoreReply) (st : LoopState) :
    List Message → LoopState × List (List Ev)
  | [] => (st, [])
  | m :: ms =>
    let r := processMessage reply st m
    let rest := runLoop reply r.1 ms
    (rest.1, r.2 :: rest.2)

/-- The run loop with a cooperative shutdown request: `RUNNING` is read
at the top of each iteration (`if not RUNNING: break`), and `stop` is the
number of iterations that observe it still true — the signal handler's
asynchronous write is abstracted as the iteration index at which the flag
reads false.  Within an iteration there is no check, so a started
iteration runs `processMessage` to completion. -/
def runLoopWithShutdown (reply : StoreOp → StoreReply) :
    Nat → LoopState → List Message → LoopState × List (List Ev)
  | _, st, [] => (st, [])
  | 0, st, _ :: _ => (st, [])
  | stop + 1, st, m :: ms =>
    let r := processMessage reply st m
    let rest := runLoopWithShutdown reply stop r.1 ms
    (rest.1, r.2 :: rest.2)

/-- Observable events of `make_consumer`'s startup loop: a connection
attempt (numbered from 1) or a `time.sleep(delay)`. -/
inductive ConnEv : Type where
  | attempt (n : Nat) : ConnEv
  | sleep (secs : Nat) : ConnEv

/-- Outcome of `make_consumer`: a consumer connected on some attempt, the
`NoBrokersAvailable` exception re-raised after the last attempt, or the
`for` loop falling through without any attempt (only possible when
`retries = 0`, where the Python function returns `None`). -/
inductive ConnResult : Type where
  | connected (attempt : Nat) : ConnResult
  | raised : ConnResult
  | fellThrough : ConnResult

/-- The body of `make_consumer`'s `for attempt in range(1, retries + 1)`
loop, iterating over the remaining attempt numbers.  `fails n = true`
means `KafkaConsumer(...)` raises `NoBrokersAvailable` on attempt `n`.
On a failing attempt the exception is re-raised if `attempt == retries`,
otherwise the loop sleeps `delay` seconds and tries again. -/
def make_consumer_loop (fails : Nat → Bool) (retries delay : Nat) :
    List Nat → ConnResult × List ConnEv
  | [] => (.fellThrough, [])
  | a :: rest =>
    if fails a then
      if a = retries then (.raised, [.attempt a])
      else
        let r := make_consumer_loop fails retries delay rest
        (r.1, .attempt a :: .sleep delay :: r.2)
    else (.connected a, [.attempt a])

/-- `indexer.make_consumer(retries, delay)` (the source's defaults are
`retries = 10`, `delay = 6`): returns the outcome together with the trace
of attempts and sleeps. -/
def make_consumer (fails : Nat → Bool) (retries delay : Nat) :
    ConnResult × List ConnEv :=
  make_consumer_loop fails retries delay (List.range' 1 retries)

/-- Count of connection attempts in a startup trace. -/
def countAttempts : List ConnEv → Nat
  | [] => 0
  | .attempt _ :: t => countAttempts t + 1
  | .sleep _ :: t => countAttempts t

/-! ## The query-layer HTTP service (`src/infra/api/api.py`)

Only the status-code behaviour of the two endpoints that contact the
index store is embedded; the OpenSearch client is abstracted as the
`Except OSError _` outcome of its call(s). -/

/-- An exception out of the OpenSearch client: `opensearchpy`'s
`ConnectionError` (the store is unavailable) or any other exception. -/
inductive OSError : Type where
  | connectionError (msg : String) : OSError
  | other (msg : String) : OSError

/-- What `os_client.info()` returns when it succeeds (only the field the
endpoint reads). -/
structure OSInfo : Type where
  version_number : String

/-- What `os_client.cluster.health()` returns when it succeeds. -/
structure ClusterHealth : Type where
  status : String
  cluster_name : String

/-- The search hits the `/search` handler reads out of the OpenSearch
response. -/
structure SearchHits : Type where
  total : Nat
  hits : List JValue

/-- A FastAPI handler outcome: a 200 response with a body, or a raised
`HTTPException` with a status code and detail. -/
inductive HttpResult (α : Type) : Type where
  | ok (body : α) : HttpResult α
  | httpError (statusCode : Nat) (detail : String) : HttpResult α

/-- HTTP status code of a handler outcome. -/
def httpStatus {α : Type} : HttpResult α → Nat
  | .ok _ => 200
  | .httpError s _ => s

/-- `api.health`: tries `os_client.info()` then `os_client.cluster.health()`;
`except OSConnectionError` → 503 "OpenSearch is unreachable",
`except Exception` → 503 with the exception's text. -/
def health (info : Except OSError OSInfo)
    (cluster : Except OSError ClusterHealth) :
    HttpResult (String × String × String × String) :=
  match info with
  | .error (.connectionError _) => .httpError 503 "OpenSearch is unreachable"
  | .error (.other e) => .httpError 503 e
  | .ok i =>
    match cluster with
    | .error (.connectionError _) => .httpError 503 "OpenSearch is unreachable"
    | .error (.other e) => .httpError 503 e
    | .ok c => .ok ("ok", i.version_number, c.status, c.cluster_name)

/-- `api.search`: runs the `os_client.search(...)` query; on success
returns the result page, and `except Exception` — including the
connection error raised when the store is unavailable — → 500 with the
exception's text. -/
def search (q index : String) (size from_ : Nat)
    (result : Except OSError SearchHits) :
    HttpResult (Nat × Nat × Nat × String × List JValue) :=
  match result with
  | .ok r => .ok (r.total, from_, size, q, r.hits)
  | .error (.connectionError e) => .httpError 500 e
  | .error (.other e) => .httpError 500 e

/-! ## Helper lemmas -/

theorem opIsCUR_not_d {v : JValue} (h : opIsCUR v = true) : opIsD v = false := by
  cases v with
  | str s =>
    simp only [opIsCUR, Bool.or_eq_true, beq_iff_eq] at h
    simp only [opIsD, beq_eq_false_iff_ne, ne_eq]
    rcases h with (h | h) | h <;> subst h <;> decide
  | null => rfl
  | bool b => rfl
  | num n => rfl
  | arr xs => rfl
  | obj fs => rfl

theorem opIsD_not_cur {v : JValue} (h : opIsD v = true) : opIsCUR v = false := by
  cases v with
  | str s =>
    simp only [opIsD, beq_iff_eq] at h
    subst h
    decide
  | null => rfl
  | bool b => rfl
  | num n => rfl
  | arr xs => rfl
  | obj fs => rfl

theorem transform_obj (pf : List (String × JValue)) :
    transform (.obj pf) =
      if opIsCUR (jGetD pf "op" (.str "")) && pyTruthy (jGetD pf "after" .null) then
        (match jGetD pf "after" .null with
         | .obj afs => Except.ok ("index", extractDocId afs, .obj afs)
         | _ => Except.error "AttributeError")
      else if opIsD (jGetD pf "op" (.str "")) && pyTruthy (jGetD pf "before" .null) then
        (match jGetD pf "before" .null with
         | .obj bfs => Except.ok ("delete", extractDocId bfs, .null)
         | _ => Except.error "AttributeError")
      else Except.ok ("skip", "", .null) := rfl

theorem jLookup_some_cons {fs : List (String × JValue)} {k : String} {v : JValue}
    (h : jLookup fs k = some v) : ∃ a t, fs = a :: t := by
  cases fs with
  | nil => simp [jLookup] at h
  | cons a t => exact ⟨a, t, rfl⟩

theorem pyTruthy_of_lookup {fs : List (String × JValue)} {k : String} {v : JValue}
    (h : jLookup fs k = some v) : pyTruthy (.obj fs) = true := by
  obtain ⟨a, t, rfl⟩ := jLookup_some_cons h
  rfl

/-! ## Claim theorems -/

/-- C2 (amended): for every envelope whose `op` is `"c"`, `"u"` or `"r"`
and whose `after` field is a non-empty object, `transform` returns the
upsert action `("index", doc_id, after)` with `doc_id =
str(after.get("id", after.get("Id", "")))` and body exactly the `after`
object.  (The claim's "non-null `after`" is amended to "non-empty object
`after`": the code tests Python truthiness, so the empty object is
treated like an absent `after` — see the counterexample.) -/
theorem transform_upsert (pf afs : List (String × JValue))
    (hop : opIsCUR (jGetD pf "op" (.str "")) = true)
    (hafter : jGetD pf "after" .null = .obj afs)
    (hne : afs ≠ []) :
    transform (.obj pf) = .ok ("index", extractDocId afs, .obj afs) := by
  obtain ⟨a, t, rfl⟩ : ∃ a t, afs = a :: t := by
    cases afs with
    | nil => exact absurd rfl hne
    | cons a t => exact ⟨a, t, rfl⟩
  simp only [transform, hop, hafter, pyTruthy, List.isEmpty_cons,
    Bool.not_false, Bool.and_self, if_pos]

/-- C2, counterexample to the claim as stated: the envelope
`{"op": "c", "after": {}}` has a non-null `after`, yet `transform`
returns the skip action, not an upsert — the code tests Python
truthiness, and the empty dict is falsy. -/
theorem transform_upsert_cex :
    transform (.obj [("op", .str "c"), ("after", .obj [])])
        = .ok ("skip", "", .null)
      ∧ "skip" ≠ "index" :=
  ⟨rfl, by decide⟩

/-- C2 witness: a concrete create envelope with a non-empty `after`
image is turned into the upsert action. -/
theorem transform_upsert_witness :
    transform (.obj [("op", .str "c"),
        ("after", .obj [("id", .str "42"), ("name", .str "Ann")])])
      = .ok ("index", extractDocId [("id", .str "42"), ("name", .str "Ann")],
          .obj [("id", .str "42"), ("name", .str "Ann")]) :=
  transform_upsert
    [("op", .str "c"), ("after", .obj [("id", .str "42"), ("name", .str "Ann")])]
    [("id", .str "42"), ("name", .str "Ann")] rfl rfl (List.cons_ne_nil _ _)

/-- C4 (amended): for every envelope whose `op` is `"d"` and whose
`before` field is a non-empty object, `transform` returns the delete
action `("delete", doc_id, None)` with `doc_id = str(before.get("id",
before.get("Id", "")))`.  (As for C2, "non-null `before`" is amended to
"non-empty object `before`": the code tests Python truthiness.) -/
theorem transform_delete (pf bfs : List (String × JValue))
    (hop : opIsD (jGetD pf "op" (.str "")) = true)
    (hbefore : jGetD pf "before" .null = .obj bfs)
    (hne : bfs ≠ []) :
    transform (.obj pf) = .ok ("delete", extractDocId bfs, .null) := by
  obtain ⟨a, t, rfl⟩ : ∃ a t, bfs = a :: t := by
    cases bfs with
    | nil => exact absurd rfl hne
    | cons a t => exact ⟨a, t, rfl⟩
  simp only [transform, hop, opIsD_not_cur hop, hbefore, pyTruthy,
    List.isEmpty_cons, Bool.not_false, Bool.and_self, Bool.false_and,
    Bool.and_true, if_neg, if_pos, Bool.false_eq_true, not_false_eq_true]

/-- C4 witness: a concrete delete envelope with a non-empty `before`
image is turned into the delete action. -/
theorem transform_delete_witness :
    transform (.obj [("op", .str "d"), ("before", .obj [("id", .str "42")])])
      = .ok ("delete", extractDocId [("id", .str "42")], .null) :=
  transform_delete [("op", .str "d"), ("before", .obj [("id", .str "42")])]
    [("id", .str "42")] rfl rfl (List.cons_ne_nil _ _)

/-- C4, counterexample to the claim as stated: the envelope
`{"op": "d", "before": {}}` has a non-null `before`, yet `transform`
returns the skip action, not a delete — the empty dict is Python-falsy. -/
theorem transform_delete_cex :
    transform (.obj [("op", .str "d"), ("before", .obj [])])
        = .ok ("skip", "", .null)
      ∧ "skip" ≠ "delete" :=
  ⟨rfl, by decide⟩

/-- Well-formedness of one half of a `ChangeEnvelope` payload: the
`after`/`before` field is JSON `null` (also covering an absent key, since
`payload.get` then yields `None`) or a JSON object — exactly the spec's
`optional Document`. -/
def docLike (v : JValue) : Prop := v = .null ∨ ∃ fs, v = .obj fs

/-- C5: on every `ChangeEnvelope` payload — an object whose `after` and
`before` fields are each absent, null, or an object (the spec's `optional
Document`), with no constraint on `op` — `transform` totally returns a
result and never raises; in particular missing fields degrade to the skip
action. -/
theorem transform_total (pf : List (String × JValue))
    (ha : docLike (jGetD pf "after" .null))
    (hb : docLike (jGetD pf "before" .null)) :
    ∃ r, transform (.obj pf) = .ok r := by
  rw [transform_obj]
  split
  · rcases ha with ha | ⟨afs, ha⟩
    · rename_i hcur
      rw [ha] at hcur
      simp [pyTruthy] at hcur
    · rw [ha]
      exact ⟨_, rfl⟩
  · split
    · rcases hb with hb | ⟨bfs, hb⟩
      · rename_i hd
        rw [hb] at hd
        simp [pyTruthy] at hd
      · rw [hb]
        exact ⟨_, rfl⟩
    · exact ⟨_, rfl⟩

/-- C5 witness: the empty-ish envelope `{"op": "zzz"}` is well-formed and
`transform` returns (the skip action) on it. -/
theorem transform_total_witness :
    docLike (jGetD [("op", JValue.str "zzz")] "after" .null)
      ∧ docLike (jGetD [("op", JValue.str "zzz")] "before" .null)
      ∧ ∃ r, transform (.obj [("op", JValue.str "zzz")]) = .ok r :=
  ⟨Or.inl rfl, Or.inl rfl,
    transform_total [("op", JValue.str "zzz")] (Or.inl rfl) (Or.inl rfl)⟩

/-- C10: the document id written to the store is always the Python
`str()` coercion of the raw identifier value: if the `"id"` key is
present its value is stringified (even when it is `null`, giving the
literal key `"None"` — no fallback, no skip), the `"Id"` fallback is
consulted only when `"id"` is absent, and a numeric identifier `42` keys
the document as the string `"42"`; the last conjunct shows the resulting
upsert action through `transform`. -/
theorem doc_id_str_semantics :
    (∀ afs v, jLookup afs "id" = some v → extractDocId afs = pyStr v)
      ∧ (∀ afs v, jLookup afs "id" = none → jLookup afs "Id" = some v →
          extractDocId afs = pyStr v)
      ∧ pyStr (JValue.num 42) = "42"
      ∧ extractDocId [("id", JValue.null), ("Id", JValue.str "other")] = "None"
      ∧ transform (.obj [("op", .str "c"),
            ("after", .obj [("id", JValue.null), ("Id", JValue.str "other")])])
          = .ok ("index", "None",
              .obj [("id", JValue.null), ("Id", JValue.str "other")]) := by
  refine ⟨?_, ?_, rfl, rfl, rfl⟩
  · intro afs v h
    simp only [extractDocId, jGetD, h, Option.getD_some]
  · intro afs v h h2
    simp only [extractDocId, jGetD, h, h2, Option.getD_some, Option.getD_none]

/-- C10 witness: a present numeric `"id"` is stringified. -/
theorem doc_id_str_semantics_witness :
    extractDocId [("id", JValue.num 7)] = pyStr (JValue.num 7) :=
  doc_id_str_semantics.1 [("id", JValue.num 7)] (JValue.num 7) rfl

/-- Envelope-level skip categories of claim C3: the envelope is missing
the payload half its operation needs (`after` for create/update/read,
`before` for delete), or that document image carries neither an `"id"`
nor an `"Id"` key. -/
def envSkipCase (pf : List (String × JValue)) : Prop :=
  (opIsCUR (jGetD pf "op" (.str "")) = true
      ∧ pyTruthy (jGetD pf "after" .null) = false)
  ∨ (opIsD (jGetD pf "op" (.str "")) = true
      ∧ pyTruthy (jGetD pf "before" .null) = false)
  ∨ (opIsCUR (jGetD pf "op" (.str "")) = true
      ∧ ∃ afs, jGetD pf "after" .null = .obj afs
          ∧ jLookup afs "id" = none ∧ jLookup afs "Id" = none)
  ∨ (opIsD (jGetD pf "op" (.str "")) = true
      ∧ ∃ bfs, jGetD pf "before" .null = .obj bfs
          ∧ jLookup bfs "id" = none ∧ jLookup bfs "Id" = none)

/-- Message-level skip categories of claim C3: no deserialized value, a
falsy value, a JSON-object value without a `"payload"` key, or a payload
envelope in one of the `envSkipCase` categories. -/
def messageSkipCase (m : Message) : Prop :=
  m.value = none
  ∨ (∃ v, m.value = some v ∧ pyTruthy v = false)
  ∨ (∃ vf, m.value = some (.obj vf) ∧ jLookup vf "payload" = none)
  ∨ (∃ vf pf, m.value = some (.obj vf)
      ∧ jLookup vf "payload" = some (.obj pf) ∧ envSkipCase pf)

theorem transform_skipish {pf : List (String × JValue)} (h : envSkipCase pf) :
    ∃ op docId body, transform (.obj pf) = .ok (op, docId, body)
      ∧ (op = "skip" ∨ docId = "") := by
  rw [transform_obj]
  rcases h with ⟨hcur, hfa⟩ | ⟨hd, hfb⟩ | ⟨hcur, afs, ha, h1, h2⟩
    | ⟨hd, bfs, hb, h1, h2⟩
  · simp only [hcur, hfa, opIsCUR_not_d hcur, Bool.and_false, Bool.false_and,
      Bool.false_eq_true, if_false]
    exact ⟨_, _, _, rfl, Or.inl rfl⟩
  · simp only [hd, hfb, opIsD_not_cur hd, Bool.and_false, Bool.false_and,
      Bool.false_eq_true, if_false]
    exact ⟨_, _, _, rfl, Or.inl rfl⟩
  · cases ht : pyTruthy (jGetD pf "after" .null) with
    | false =>
      simp only [hcur, ht, opIsCUR_not_d hcur, Bool.and_false, Bool.false_and,
        Bool.false_eq_true, if_false]
      exact ⟨_, _, _, rfl, Or.inl rfl⟩
    | true =>
      simp only [hcur, ht, Bool.and_self, if_true, ha]
      refine ⟨_, _, _, rfl, Or.inr ?_⟩
      simp only [extractDocId, jGetD, h1, h2, Option.getD_none]
      rfl
  · cases ht : pyTruthy (jGetD pf "before" .null) with
    | false =>
      simp only [hd, ht, opIsD_not_cur hd, Bool.and_false, Bool.false_and,
        Bool.false_eq_true, if_false]
      exact ⟨_, _, _, rfl, Or.inl rfl⟩
    | true =>
      simp only [hd, ht, opIsD_not_cur hd, Bool.and_self, Bool.false_and,
        Bool.false_eq_true, if_false, if_true, hb]
      refine ⟨_, _, _, rfl, Or.inr ?_⟩
      simp only [extractDocId, jGetD, h1, h2, Option.getD_none]
      rfl

/-- C3: for every incoming message that lacks a `payload` key (or whose
value is empty/falsy), or whose envelope is missing the payload half its
operation needs, or whose document image has no `"id"`/`"Id"` key, the
iteration treats it as a skip: no store call is issued, the offset is
committed immediately, and the state — error counter included — is
unchanged. -/
theorem skip_commits_immediately (reply : StoreOp → StoreReply)
    (st : LoopState) (m : Message) (h : messageSkipCase m) :
    processMessage reply st m = (st, [Ev.commit]) := by
  rcases h with hv | ⟨v, hv, hfalsy⟩ | ⟨vf, hv, hlk⟩ | ⟨vf, pf, hv, hlk, hskip⟩
  · simp [processMessage, hv]
  · simp [processMessage, hv, hfalsy]
  · cases ht : pyTruthy (JValue.obj vf) <;>
      simp [processMessage, hv, ht, pyContains, hlk]
  · have ht := pyTruthy_of_lookup hlk
    obtain ⟨op, docId, body, htr, hor⟩ := transform_skipish hskip
    rcases hor with rfl | rfl <;>
      simp [processMessage, hv, ht, pyContains, pySubscript, hlk, htr]

/-- C3 witness: a create envelope with no `after` image is committed
immediately with no store call and no error. -/
theorem skip_commits_immediately_witness :
    messageSkipCase ⟨"t", 0, 0, some (.obj [("payload", .obj [("op", .str "c")])])⟩
      ∧ processMessage (fun _ => StoreReply.ok) ⟨0, 0, 0, []⟩
          ⟨"t", 0, 0, some (.obj [("payload", .obj [("op", .str "c")])])⟩
        = (⟨0, 0, 0, []⟩, [Ev.commit]) := by
  have hm : messageSkipCase
      ⟨"t", 0, 0, some (.obj [("payload", .obj [("op", .str "c")])])⟩ :=
    Or.inr (Or.inr (Or.inr ⟨[("payload", .obj [("op", .str "c")])],
      [("op", .str "c")], rfl, rfl, Or.inl ⟨rfl, rfl⟩⟩))
  exact ⟨hm, skip_commits_immediately _ _ _ hm⟩

/-- Whether a store call outcome lets the iteration fall through to the
commit: success, or `NotFoundError` absorbed by the delete handler. -/
def replySucceeds : StoreOp → StoreReply → Bool
  | .indexDoc _ _ _, .ok => true
  | .deleteDoc _ _, .ok => true
  | .deleteDoc _ _, .notFound => true
  | _, _ => false

theorem processMessage_shape (reply : StoreOp → StoreReply) (st : LoopState)
    (m : Message) :
    ((processMessage reply st m).1.errors = st.errors ∧
      ((processMessage reply st m).2 = [Ev.commit] ∨
       ∃ c r, (processMessage reply st m).2 = [Ev.call c r, Ev.commit]
         ∧ replySucceeds c r = true))
    ∨ ((processMessage reply st m).1.errors = st.errors + 1 ∧
      ((∃ e, (processMessage reply st m).2 = [Ev.error e]) ∨
       ∃ c r e, (processMessage reply st m).2 = [Ev.call c r, Ev.error e])) := by
  unfold processMessage
  dsimp only
  repeat' split
  all_goals first
    | exact Or.inl ⟨rfl, Or.inl rfl⟩
    | exact Or.inl ⟨rfl, Or.inr ⟨_, _, rfl, rfl⟩⟩
    | exact Or.inr ⟨rfl, Or.inl ⟨_, rfl⟩⟩
    | exact Or.inr ⟨rfl, Or.inr ⟨_, _, _, rfl⟩⟩

/-- C1: in every loop iteration, the offset is committed exactly when the
event's action was fully applied (no transform/apply exception): the
commit — when present — is the trace's last event and every store call in
that trace succeeded (commit strictly follows successful apply, never
precedes it); an exception increments the error counter by one and
withholds the commit; every iteration's outcome is one of those two; and
the run loop always continues to the remaining events. -/
theorem commit_iff_applied (reply : StoreOp → StoreReply) (st : LoopState)
    (m : Message) (msgs : List Message) :
    (Ev.commit ∈ (processMessage reply st m).2
        ↔ (processMessage reply st m).1.errors = st.errors)
    ∧ ((processMessage reply st m).1.errors = st.errors
        ∨ (processMessage reply st m).1.errors = st.errors + 1)
    ∧ (Ev.commit ∈ (processMessage reply st m).2 →
        (processMessage reply st m).2.getLast? = some Ev.commit
        ∧ ∀ c r, Ev.call c r ∈ (processMessage reply st m).2 →
            replySucceeds c r = true)
    ∧ runLoop reply st (m :: msgs) =
        ((runLoop reply (processMessage reply st m).1 msgs).1,
         (processMessage reply st m).2
           :: (runLoop reply (processMessage reply st m).1 msgs).2) := by
  refine ⟨?_, ?_, ?_, rfl⟩
  · rcases processMessage_shape reply st m with
      ⟨he, ht | ⟨c, r, ht, hrs⟩⟩ | ⟨he, ⟨e, ht⟩ | ⟨c, r, e, ht⟩⟩
    · rw [he, ht]
      simp
    · rw [he, ht]
      simp
    · rw [he, ht]
      constructor
      · intro hmem
        simp at hmem
      · intro habs
        exact absurd habs (by omega)
    · rw [he, ht]
      constructor
      · intro hmem
        simp at hmem
      · intro habs
        exact absurd habs (by omega)
  · rcases processMessage_shape reply st m with ⟨he, _⟩ | ⟨he, _⟩
    · exact Or.inl he
    · exact Or.inr he
  · rcases processMessage_shape reply st m with
      ⟨he, ht | ⟨c, r, ht, hrs⟩⟩ | ⟨he, ⟨e, ht⟩ | ⟨c, r, e, ht⟩⟩
    · rw [ht]
      intro _
      refine ⟨rfl, ?_⟩
      intro c2 r2 hc
      simp at hc
    · rw [ht]
      intro _
      refine ⟨rfl, ?_⟩
      intro c2 r2 hc
      simp only [List.mem_cons, List.not_mem_nil, or_false] at hc
      rcases hc with hc | hc
      · obtain ⟨rfl, rfl⟩ := Ev.call.inj hc
        exact hrs
      · exact absurd hc (by simp)
    · rw [ht]
      intro hmem
      simp at hmem
    · rw [ht]
      intro hmem
      simp at hmem

/-- C1 witness: a successfully applied upsert event gets its offset
committed. -/
theorem commit_iff_applied_witness :
    Ev.commit ∈ (processMessage (fun _ => StoreReply.ok) ⟨0, 0, 0, []⟩
      ⟨"cdc.dbo.profiles", 0, 0,
        some (.obj [("payload",
          .obj [("op", .str "c"), ("after", .obj [("id", .str "42")])])])⟩).2 :=
  (commit_iff_applied (fun _ => StoreReply.ok) ⟨0, 0, 0, []⟩
    ⟨"cdc.dbo.profiles", 0, 0,
      some (.obj [("payload",
        .obj [("op", .str "c"), ("after", .obj [("id", .str "42")])])])⟩
    []).1.mpr rfl

/-- C6: a delete whose document is absent — the store call answers
`NotFoundError` — raises nothing out of the apply step: the exception is
absorbed as a no-op, the state (error counter included) is unchanged, and
the event's offset is still committed. -/
theorem delete_absent_commits (reply : StoreOp → StoreReply) (st : LoopState)
    (topic : String) (part off : Nat) (vf : List (String × JValue))
    (p : JValue) (did : String)
    (hlk : jLookup vf "payload" = some p)
    (htr : transform p = .ok ("delete", did, .null))
    (hid : did ≠ "")
    (hre : reply (StoreOp.deleteDoc (topic_to_index topic) did) = .notFound) :
    processMessage reply st ⟨topic, part, off, some (.obj vf)⟩
      = (st, [Ev.call (StoreOp.deleteDoc (topic_to_index topic) did) .notFound,
              Ev.commit]) := by
  have ht := pyTruthy_of_lookup hlk
  simp [processMessage, ht, pyContains, pySubscript, hlk, htr, hid, hre]

/-- C6 witness: deleting the absent document `profiles/42` commits the
offset with no error. -/
theorem delete_absent_commits_witness :
    processMessage (fun _ => StoreReply.notFound) ⟨0, 0, 0, []⟩
        ⟨"cdc.dbo.profiles", 0, 0,
          some (.obj [("payload",
            .obj [("op", .str "d"), ("before", .obj [("id", .str "42")])])])⟩
      = (⟨0, 0, 0, []⟩,
         [Ev.call (StoreOp.deleteDoc (topic_to_index "cdc.dbo.profiles") "42")
            .notFound, Ev.commit]) :=
  delete_absent_commits _ _ _ _ _ _ _ _ rfl rfl (by decide) rfl

/-- C7: shutdown is cooperative — stopping after `stop` iterations (the
`RUNNING` flag is read only at the top of each iteration) produces
exactly the behaviour of the normal loop on the first `stop` messages:
the loop stops before processing the next event, never mid-apply, and
every started iteration (its apply and commit included) runs to
completion unaltered. -/
theorem shutdown_cooperative (reply : StoreOp → StoreReply) :
    ∀ (msgs : List Message) (stop : Nat) (st : LoopState),
      runLoopWithShutdown reply stop st msgs = runLoop reply st (msgs.take stop) := by
  intro msgs
  induction msgs with
  | nil =>
    intro stop st
    cases stop <;> rfl
  | cons m ms ih =>
    intro stop st
    cases stop with
    | zero => rfl
    | succ n =>
      simp only [runLoopWithShutdown, List.take_succ_cons, runLoop]
      rw [ih]

theorem make_consumer_loop_raises (fails : Nat → Bool) (retries delay : Nat) :
    ∀ l : List Nat, (∀ a ∈ l, fails a = true) → retries ∈ l →
      (make_consumer_loop fails retries delay l).1 = .raised := by
  intro l
  induction l with
  | nil =>
    intro _ hmem
    simp at hmem
  | cons a t ih =>
    intro hall hmem
    have hf : fails a = true := hall a (List.mem_cons_self a t)
    by_cases ha : a = retries
    · simp only [make_consumer_loop, if_pos hf, if_pos ha]
    · have hmt : retries ∈ t := by
        rcases List.mem_cons.mp hmem with h | h
        · exact absurd h.symm ha
        · exact h
      have hrec := ih (fun x hx => hall x (List.mem_cons_of_mem a hx)) hmt
      simp only [make_consumer_loop, if_pos hf, if_neg ha]
      exact hrec

theorem make_consumer_loop_attempts (fails : Nat → Bool) (retries delay : Nat) :
    ∀ l : List Nat,
      countAttempts (make_consumer_loop fails retries delay l).2 ≤ l.length := by
  intro l
  induction l with
  | nil => simp [make_consumer_loop, countAttempts]
  | cons a t ih =>
    by_cases hf : fails a = true
    · by_cases ha : a = retries
      · simp only [make_consumer_loop, if_pos hf, if_pos ha, countAttempts,
          List.length_cons]
        omega
      · simp only [make_consumer_loop, if_pos hf, if_neg ha, countAttempts,
          List.length_cons]
        omega
    · simp only [make_consumer_loop, if_neg hf, countAttempts, List.length_cons]
      omega

theorem make_consumer_loop_sleeps (fails : Nat → Bool) (retries delay : Nat) :
    ∀ l : List Nat, ∀ s,
      ConnEv.sleep s ∈ (make_consumer_loop fails retries delay l).2 → s = delay := by
  intro l
  induction l with
  | nil =>
    intro s hs
    simp [make_consumer_loop] at hs
  | cons a t ih =>
    intro s hs
    by_cases hf : fails a = true
    · by_cases ha : a = retries
      · simp only [make_consumer_loop, if_pos hf, if_pos ha] at hs
        simp at hs
      · simp only [make_consumer_loop, if_pos hf, if_neg ha,
          List.mem_cons] at hs
        rcases hs with hs | hs | hs
        · exact absurd hs (by simp)
        · exact ConnEv.sleep.inj hs
        · exact ih s hs
    · simp only [make_consumer_loop, if_neg hf] at hs
      simp at hs

/-- C8: with the source's parameters (`retries = 10`, `delay = 6`),
startup connection establishment makes at most 10 attempts, every sleep
between attempts is exactly 6 seconds, and if all 10 attempts fail the
`NoBrokersAvailable` exception is re-raised to the caller — a fatal
startup failure instead of further retrying. -/
theorem make_consumer_bounded (fails : Nat → Bool) :
    countAttempts (make_consumer fails 10 6).2 ≤ 10
    ∧ (∀ s, ConnEv.sleep s ∈ (make_consumer fails 10 6).2 → s = 6)
    ∧ ((∀ a, 1 ≤ a → a ≤ 10 → fails a = true) →
        (make_consumer fails 10 6).1 = .raised) := by
  refine ⟨?_, ?_, ?_⟩
  · exact make_consumer_loop_attempts fails 10 6 (List.range' 1 10)
  · exact make_consumer_loop_sleeps fails 10 6 (List.range' 1 10)
  · intro h
    refine make_consumer_loop_raises fails 10 6 (List.range' 1 10) ?_ (by decide)
    intro a ha
    simp only [List.range', List.mem_cons, List.not_mem_nil, or_false] at ha
    rcases ha with rfl | rfl | rfl | rfl | rfl | rfl | rfl | rfl | rfl | rfl <;>
      exact h _ (by decide) (by decide)

/-- C8 witness: a permanently unreachable broker exhausts the bound and
the failure propagates. -/
theorem make_consumer_bounded_witness :
    (make_consumer (fun _ => true) 10 6).1 = .raised :=
  (make_consumer_bounded (fun _ => true)).2.2 (fun _ _ _ => rfl)

/-- C9, counterexample to the claim as stated: `/search` is an endpoint
that contacts the store, yet when the store is unavailable (the client
raises its connection error) it responds 500, not the claimed 503. -/
theorem search_unavailable_cex :
    httpStatus (search "ann" "profiles" 10 0
        (.error (.connectionError "unreachable"))) = 500
    ∧ (500 : Nat) ≠ 503 :=
  ⟨rfl, by decide⟩

/-- C9 (amended): when the index store is unavailable, the health
endpoint translates the connection error into a 503 service-unavailable
response (whether `info()` or `cluster.health()` raised it), while the
search endpoint — the other endpoint contacting the store — maps every
exception, store unavailability included, to a 500 response. -/
theorem store_unavailable_status (e : String) (i : OSInfo)
    (cluster : Except OSError ClusterHealth) (q index : String)
    (size from_ : Nat) :
    httpStatus (health (.error (.connectionError e)) cluster) = 503
    ∧ httpStatus (health (.ok i) (.error (.connectionError e))) = 503
    ∧ httpStatus (search q index size from_
        (.error (.connectionError e))) = 500 :=
  ⟨rfl, rfl, rfl⟩

end Clustered
